import Mathlib

/-!
Verification of the `optimize-go` API client (`pkg/api/client.go`) against its
natural-language specification.  The Go code is shallowly embedded: Go errors
become `Option String` (with `none` for a nil error), the fallible
`(value, error)` return convention becomes `Except String`, byte slices become
`Option (List Nat)` (with `none` for a nil slice), the per-call concurrency of
`Do` (the body-read goroutine racing the context's Done channel in a `select`)
is resolved by an explicit schedule input naming which `select` branch is
observed first, and the caller's `*http.Request` pointer is modelled by a small
allocate-only heap so that mutation of the caller's request is observable.
-/

namespace OptimizeGo

/-- A Go error value: `none` models a nil error. -/
abbrev Err := Option String

/-- The observable behaviour of a non-nil `context.Context` as used by `Do`:
whether its Done channel fires before the body read completes, and the value
of `ctx.Err()` once cancelled. -/
structure CtxVal where
  cancels : Bool
  errMsg : String
deriving DecidableEq, Repr

/-- A `context.Context` interface value; `none` models a nil context. -/
abbrev Ctx := Option CtxVal

/-- The observable behaviour of an `http.Response.Body`: the bytes delivered by
`ioutil.ReadAll`, the error `ReadAll` returns, and the error returned by the
n-th call to `Close` (absent entries close with a nil error). -/
structure Body where
  bytes : List Nat
  readErr : Err
  closeErrs : List Err
deriving DecidableEq, Repr

/-- The error returned by the `n`-th call to `Body.Close` (0-indexed). -/
def Body.closeResult (b : Body) (n : Nat) : Err :=
  (b.closeErrs.get? n).getD none

/-- The slice of `http.Response` visible to `Do`. -/
structure Response where
  status : Nat
  body : Body
deriving DecidableEq, Repr

/-- The slice of `http.Request` visible to this code: an opaque payload plus
the context bound to the request (`none` until `WithContext` binds one). -/
structure Request where
  url : String
  ctx : Ctx
deriving DecidableEq, Repr

/-- `http.Request.WithContext`: returns a shallow copy of the request carrying
the given context; the receiver is unchanged. -/
def Request.withContext (r : Request) (c : CtxVal) : Request :=
  { r with ctx := some c }

/-- An `http.RoundTripper` / the transport behaviour of `http.Client.Do`:
either a response or a non-nil error (in which case the response is nil). -/
abbrev Transport := Request → Except String Response

/-- The fields of the embedded `http.Client` that this code sets and uses. -/
structure GoHttpClient where
  transport : Transport
  timeout : Nat
deriving Inhabited

/-- The `httpClient` struct: a configured `http.Client` plus the endpoint
resolver obtained from the configuration. -/
structure HttpClient where
  client : GoHttpClient
  endpoints : String → Option String

/-- `httpClient.URL`: resolves an endpoint name through the stored resolver. -/
def HttpClient.URL (c : HttpClient) (ep : String) : Option String :=
  c.endpoints ep

/-- The `Config` interface: `Endpoints()` yields a resolver or an error, and
`Authorize(ctx, transport)` wraps the (possibly nil) base transport or fails. -/
structure Config where
  endpoints : Except String (String → Option String)
  authorize : Ctx → Option Transport → Except String Transport

/-- `NewClient`: sets the fixed 10-second timeout, configures the transport via
`cfg.Authorize` (returning `nil, err` on failure), configures the endpoint
resolver via `cfg.Endpoints` (returning `nil, err` on failure), and returns the
assembled client. -/
def NewClient (ctx : Ctx) (cfg : Config) (transport : Option Transport) :
    Except String HttpClient :=
  match cfg.authorize ctx transport with
  | .error e => .error e
  | .ok t =>
    match cfg.endpoints with
    | .error e => .error e
    | .ok eps => .ok { client := { transport := t, timeout := 10 }, endpoints := eps }

/-- The schedule input resolving the `select` race in `Do`: `cancelFirst` is
true when the `ctx.Done()` branch is the one observed ready first. -/
structure Sched where
  cancelFirst : Bool
deriving DecidableEq, Repr

/-- The observable outcome of one execution of `Do`: either a normal return
carrying the three results together with how many times the body's `Close` was
invoked and whether the read goroutine was started and joined, or a runtime
panic (which still records the closes performed by deferred calls during
unwinding and whether the goroutine was joined). -/
inductive DoOutcome where
  | ret (resp : Option Response) (body : Option (List Nat)) (err : Err)
      (closeCount : Nat) (readStarted : Bool) (readJoined : Bool)
  | panicked (msg : String) (closeCount : Nat) (readStarted : Bool) (readJoined : Bool)
deriving DecidableEq, Repr

/-- The response result of an outcome (nil on panic). -/
def DoOutcome.respResult : DoOutcome → Option Response
  | .ret r _ _ _ _ _ => r
  | .panicked _ _ _ _ => none

/-- The body-bytes result of an outcome (nil on panic). -/
def DoOutcome.bodyResult : DoOutcome → Option (List Nat)
  | .ret _ b _ _ _ _ => b
  | .panicked _ _ _ _ => none

/-- The error result of an outcome (nil on panic: a panic is not an error). -/
def DoOutcome.errResult : DoOutcome → Err
  | .ret _ _ e _ _ _ => e
  | .panicked _ _ _ _ => none

/-- How many times `resp.Body.Close` was invoked during the execution. -/
def DoOutcome.closeCount : DoOutcome → Nat
  | .ret _ _ _ n _ _ => n
  | .panicked _ n _ _ => n

/-- Whether the body-read goroutine was spawned during the execution. -/
def DoOutcome.readStarted : DoOutcome → Bool
  | .ret _ _ _ _ st _ => st
  | .panicked _ _ st _ => st

/-- Whether the body-read goroutine had finished (was joined via the `done`
channel) by the time the execution ended. -/
def DoOutcome.readJoined : DoOutcome → Bool
  | .ret _ _ _ _ _ j => j
  | .panicked _ _ _ j => j

/-- Whether the execution ended in a runtime panic. -/
def DoOutcome.isPanic : DoOutcome → Bool
  | .ret _ _ _ _ _ _ => false
  | .panicked _ _ _ _ => true

/-- The straight-line body of `httpClient.Do` after the request has (possibly)
been rebound with the context, traced for one schedule:

* `resp, err := c.client.Do(req)`; on a non-nil error return `nil, nil, err`
  (no goroutine spawned, no close performed);
* `defer resp.Body.Close()` is scheduled;
* the goroutine `body, err = ioutil.ReadAll(resp.Body); close(done)` is
  spawned;
* the `select` evaluates `ctx.Done()` on entry: on a nil `ctx` this is a nil
  interface method call, which panics (the deferred close still runs while
  unwinding, the goroutine is left unjoined);
* if the cancellation branch is observed first (requires the context to
  actually cancel): `<-done` joins the goroutine, `err = resp.Body.Close()`
  (the first, explicit close), and if that close returned nil,
  `err = ctx.Err()`; the function then returns `resp, body, err` and the
  deferred close runs a second time;
* otherwise the `done` branch fires (the goroutine has finished): the function
  returns `resp, body, err` with the read results, and the deferred close runs
  once. -/
def doCore (c : HttpClient) (ctx : Ctx) (req : Request) (s : Sched) : DoOutcome :=
  match c.client.transport req with
  | .error e => .ret none none (some e) 0 false true
  | .ok resp =>
    match ctx with
    | none =>
      .panicked "runtime error: invalid memory address or nil pointer dereference"
        1 true false
    | some cv =>
      if cv.cancels && s.cancelFirst then
        let closeErr := resp.body.closeResult 0
        let err : Err :=
          match closeErr with
          | none => some cv.errMsg
          | some e => some e
        .ret (some resp) (some resp.body.bytes) err 2 true true
      else
        .ret (some resp) (some resp.body.bytes) resp.body.readErr 1 true true

/-- An allocate-only heap of `http.Request` objects, addressed by `Nat`
pointers; `next` is the first unallocated address. -/
structure Heap where
  next : Nat
  mem : Nat → Request

/-- Allocate a fresh request object, returning the new heap and its address. -/
def Heap.alloc (h : Heap) (r : Request) : Heap × Nat :=
  ({ next := h.next + 1,
     mem := fun i => if i = h.next then r else h.mem i }, h.next)

/-- Heap-level `req.WithContext(ctx)`: reads the request at `p`, allocates a
shallow copy carrying the context, and returns the copy's address; the object
at `p` is not written. -/
def Heap.withContext (h : Heap) (p : Nat) (cv : CtxVal) : Heap × Nat :=
  h.alloc ((h.mem p).withContext cv)

/-- `httpClient.Do`: if the context is non-nil, the local `req` variable is
rebound to `req.WithContext(ctx)` (a fresh copy on the heap); the rest of the
function is `doCore` on the request the local variable now denotes.  Returns
the outcome together with the final heap. -/
def HttpClient.Do (c : HttpClient) (ctx : Ctx) (h : Heap) (p : Nat) (s : Sched) :
    DoOutcome × Heap :=
  match ctx with
  | some cv =>
    let hp := h.withContext p cv
    (doCore c (some cv) (hp.1.mem hp.2) s, hp.1)
  | none => (doCore c none (h.mem p) s, h)

/-! ### Concrete fixtures used by witnesses and counterexamples -/

/-- A body delivering the bytes of `"ok"` with nil read and close errors. -/
def okBody : Body := { bytes := [111, 107], readErr := none, closeErrs := [none, none] }

/-- A 200 response with body `"ok"`. -/
def okResp : Response := { status := 200, body := okBody }

/-- A transport that always succeeds with `okResp`. -/
def okTransport : Transport := fun _ => .ok okResp

/-- A transport that always fails with a connection-refused error. -/
def failTransport : Transport := fun _ => .error "dial tcp: connection refused"

/-- The resolver mapping `"foo"` to `http://example.test/foo`. -/
def fooResolver : String → Option String :=
  fun s => if s = "foo" then some "http://example.test/foo" else none

/-- A configuration whose `Authorize` returns `okTransport` and whose
`Endpoints` returns `fooResolver`. -/
def cfgOk : Config :=
  { endpoints := .ok fooResolver, authorize := fun _ _ => .ok okTransport }

/-- A configuration whose `Authorize` fails. -/
def cfgAuthFail : Config :=
  { endpoints := .ok fooResolver, authorize := fun _ _ => .error "auth boom" }

/-- A configuration whose `Authorize` succeeds but whose `Endpoints` fails. -/
def cfgEndpointsFail : Config :=
  { endpoints := .error "endpoints boom", authorize := fun _ _ => .ok okTransport }

/-- The client `NewClient` builds from `cfgOk`. -/
def hcOk : HttpClient :=
  { client := { transport := okTransport, timeout := 10 }, endpoints := fooResolver }

/-- A client with the always-succeeding transport (as built by `NewClient`). -/
def okClient : HttpClient := hcOk

/-- A client whose transport always fails. -/
def failClient : HttpClient :=
  { client := { transport := failTransport, timeout := 10 }, endpoints := fooResolver }

/-- A context that cancels before the read completes, with `ctx.Err()` equal to
`context.Canceled`. -/
def cancelCtx : CtxVal := { cancels := true, errMsg := "context canceled" }

/-- A context that never cancels. -/
def quietCtx : CtxVal := { cancels := false, errMsg := "" }

/-- A request with no context bound yet. -/
def req0 : Request := { url := "http://example.test/foo", ctx := none }

/-- The schedule in which the cancellation branch of the `select` is observed
first. -/
def schedCancel : Sched := { cancelFirst := true }

/-- The schedule in which the read-completion branch is observed first. -/
def schedDone : Sched := { cancelFirst := false }

/-- A one-object heap holding `req0` at address 0. -/
def heap0 : Heap := { next := 1, mem := fun _ => req0 }

/-! ### Claims -/

/-- Claim C1, counterexample: on the cancellation path (transport succeeded,
the context cancels and its branch is observed first) the response body's
`Close` is invoked twice — the explicit close plus the deferred close — not
exactly once as claimed. -/
theorem do_close_exactly_once_counterexample :
    (doCore okClient (some cancelCtx) req0 schedCancel).closeCount ≠ 1 := by
  decide

/-- Claim C1 (amended): for every call to `Do` in which the transport round
trip succeeds (with a non-nil context), the response body's `Close` is invoked
exactly once on the normal-completion path and exactly twice on the
cancellation path (the explicit close followed by the deferred close). -/
theorem do_close_count (c : HttpClient) (cv : CtxVal) (req : Request) (s : Sched)
    (resp : Response) (ht : c.client.transport req = .ok resp) :
    (doCore c (some cv) req s).closeCount =
      if cv.cancels && s.cancelFirst then 2 else 1 := by
  by_cases hb : cv.cancels && s.cancelFirst <;>
    simp [doCore, ht, hb, DoOutcome.closeCount]

/-- Witness for `do_close_count` at a concrete cancelled execution. -/
theorem do_close_count_witness :
    okClient.client.transport req0 = .ok okResp ∧
    (doCore okClient (some cancelCtx) req0 schedCancel).closeCount =
      if cancelCtx.cancels && schedCancel.cancelFirst then 2 else 1 :=
  ⟨rfl, do_close_count okClient cancelCtx req0 schedCancel okResp rfl⟩

/-- Claim C2 (code bug): with a nil context and a successful round trip, `Do`
does not skip the race and return normally — entering the `select` evaluates
`ctx.Done()` on the nil context interface value, which panics with a nil
pointer dereference; the deferred close runs during unwinding and the read
goroutine is left unjoined. -/
theorem do_nil_ctx_panics :
    doCore okClient none req0 schedDone =
      .panicked "runtime error: invalid memory address or nil pointer dereference"
        1 true false := by
  rfl

/-- Claim C3, counterexample: on a concrete cancellation-path execution the
call reports failure (non-nil error) yet the bytes produced by the internal
read (`"ok"`, i.e. `[111, 107]`) are handed back to the caller in the body
result, not withheld. -/
theorem do_cancel_discards_counterexample :
    (doCore okClient (some cancelCtx) req0 schedCancel).errResult ≠ none ∧
    (doCore okClient (some cancelCtx) req0 schedCancel).bodyResult = some [111, 107] := by
  decide

/-- Claim C3 (amended): on the cancellation path the call reports failure (the
error result is non-nil), but the bytes produced by the internal read are
nevertheless returned in the body result; callers must disregard them. -/
theorem do_cancel_reports_failure (c : HttpClient) (cv : CtxVal) (req : Request)
    (s : Sched) (resp : Response) (ht : c.client.transport req = .ok resp)
    (hcv : cv.cancels = true) (hs : s.cancelFirst = true) :
    (doCore c (some cv) req s).errResult ≠ none ∧
    (doCore c (some cv) req s).bodyResult = some resp.body.bytes := by
  simp [doCore, ht, hcv, hs, DoOutcome.errResult, DoOutcome.bodyResult]
  cases resp.body.closeResult 0 <;> simp

/-- Witness for `do_cancel_reports_failure` at a concrete cancelled
execution. -/
theorem do_cancel_reports_failure_witness :
    okClient.client.transport req0 = .ok okResp ∧
    cancelCtx.cancels = true ∧ schedCancel.cancelFirst = true ∧
    ((doCore okClient (some cancelCtx) req0 schedCancel).errResult ≠ none ∧
      (doCore okClient (some cancelCtx) req0 schedCancel).bodyResult = some okResp.body.bytes) :=
  ⟨rfl, rfl, rfl, do_cancel_reports_failure okClient cancelCtx req0 schedCancel okResp rfl rfl rfl⟩

/-- Claim C4: on the cancellation path the read goroutine is joined, the body
is explicitly closed (two closes in total: explicit then deferred), and the
returned error is the context's cancellation error when the explicit close
returns nil, otherwise the close error. -/
theorem do_cancel_error (c : HttpClient) (cv : CtxVal) (req : Request) (s : Sched)
    (resp : Response) (ht : c.client.transport req = .ok resp)
    (hcv : cv.cancels = true) (hs : s.cancelFirst = true) :
    (doCore c (some cv) req s).readJoined = true ∧
    (doCore c (some cv) req s).closeCount = 2 ∧
    (doCore c (some cv) req s).errResult =
      (match resp.body.closeResult 0 with
       | none => some cv.errMsg
       | some e => some e) := by
  simp [doCore, ht, hcv, hs, DoOutcome.readJoined, DoOutcome.closeCount, DoOutcome.errResult]

/-- Witness for `do_cancel_error` at a concrete cancelled execution. -/
theorem do_cancel_error_witness :
    okClient.client.transport req0 = .ok okResp ∧
    cancelCtx.cancels = true ∧ schedCancel.cancelFirst = true ∧
    ((doCore okClient (some cancelCtx) req0 schedCancel).readJoined = true ∧
      (doCore okClient (some cancelCtx) req0 schedCancel).closeCount = 2 ∧
      (doCore okClient (some cancelCtx) req0 schedCancel).errResult =
        (match okResp.body.closeResult 0 with
         | none => some cancelCtx.errMsg
         | some e => some e)) :=
  ⟨rfl, rfl, rfl, do_cancel_error okClient cancelCtx req0 schedCancel okResp rfl rfl rfl⟩

/-- Claim C5: when the transport round trip fails, `Do` returns immediately
with a nil response, nil body bytes and the transport's error unchanged; no
read goroutine is started and no close is performed. -/
theorem do_transport_error (c : HttpClient) (ctx : Ctx) (req : Request) (s : Sched)
    (e : String) (ht : c.client.transport req = .error e) :
    doCore c ctx req s = .ret none none (some e) 0 false true := by
  simp [doCore, ht]

/-- Witness for `do_transport_error` on the always-failing transport. -/
theorem do_transport_error_witness :
    failClient.client.transport req0 = .error "dial tcp: connection refused" ∧
    doCore failClient (some quietCtx) req0 schedDone =
      .ret none none (some "dial tcp: connection refused") 0 false true :=
  ⟨rfl, do_transport_error failClient (some quietCtx) req0 schedDone
    "dial tcp: connection refused" rfl⟩

/-- Claim C6: when the configuration's `Authorize` fails, or `Authorize`
succeeds and `Endpoints` fails, `NewClient` returns no client and exactly that
error, unchanged. -/
theorem newClient_error (ctx : Ctx) (cfg : Config) (tr : Option Transport) (e : String)
    (h : cfg.authorize ctx tr = .error e ∨
      (∃ t, cfg.authorize ctx tr = .ok t) ∧ cfg.endpoints = .error e) :
    NewClient ctx cfg tr = .error e := by
  rcases h with ha | ⟨⟨t, ha⟩, he⟩
  · simp [NewClient, ha]
  · simp [NewClient, ha, he]

/-- Witness for `newClient_error` on a configuration whose `Authorize`
fails. -/
theorem newClient_error_witness :
    (cfgAuthFail.authorize none none = .error "auth boom" ∨
      (∃ t, cfgAuthFail.authorize none none = .ok t) ∧
        cfgAuthFail.endpoints = .error "auth boom") ∧
    NewClient none cfgAuthFail none = .error "auth boom" :=
  ⟨Or.inl rfl, newClient_error none cfgAuthFail none "auth boom" (Or.inl rfl)⟩

/-- Claim C7: on every execution of `Do` that returns (does not panic), if the
body-read goroutine was started then it was joined before the return — `Do`
never returns while the read task is still running. -/
theorem do_read_always_joined (c : HttpClient) (ctx : Ctx) (req : Request) (s : Sched)
    (hret : (doCore c ctx req s).isPanic = false) :
    (doCore c ctx req s).readStarted = true → (doCore c ctx req s).readJoined = true := by
  intro _
  cases ht : c.client.transport req with
  | error e => simp [doCore, ht, DoOutcome.readJoined]
  | ok resp =>
    cases ctx with
    | none => simp [doCore, ht, DoOutcome.isPanic] at hret
    | some cv =>
      by_cases hb : cv.cancels && s.cancelFirst <;>
        simp [doCore, ht, hb, DoOutcome.readJoined]

/-- Witness for `do_read_always_joined` on a concrete completed execution. -/
theorem do_read_always_joined_witness :
    (doCore okClient (some quietCtx) req0 schedDone).isPanic = false ∧
    (doCore okClient (some quietCtx) req0 schedDone).readStarted = true ∧
    (doCore okClient (some quietCtx) req0 schedDone).readJoined = true :=
  ⟨by decide, by decide,
    do_read_always_joined okClient (some quietCtx) req0 schedDone (by decide) (by decide)⟩

/-- Claim C8: every client `NewClient` successfully constructs carries the
fixed 10-second client-level timeout. -/
theorem newClient_timeout (ctx : Ctx) (cfg : Config) (tr : Option Transport)
    (hc : HttpClient) (h : NewClient ctx cfg tr = .ok hc) :
    hc.client.timeout = 10 := by
  unfold NewClient at h
  cases ha : cfg.authorize ctx tr with
  | error e => rw [ha] at h; simp at h
  | ok t =>
    rw [ha] at h
    cases he : cfg.endpoints with
    | error e => rw [he] at h; simp at h
    | ok eps =>
      rw [he] at h
      simp only [Except.ok.injEq] at h
      rw [← h]

/-- Witness for `newClient_timeout` on a successfully constructed client. -/
theorem newClient_timeout_witness :
    NewClient none cfgOk none = .ok hcOk ∧ hcOk.client.timeout = 10 :=
  ⟨rfl, newClient_timeout none cfgOk none hcOk rfl⟩

/-- Claim C9: the resolver returned by the configuration's `Endpoints` is
stored as-is, so `URL` returns exactly the resolver's value at every endpoint
name. -/
theorem newClient_resolver_as_is (ctx : Ctx) (cfg : Config) (tr : Option Transport)
    (hc : HttpClient) (r : String → Option String)
    (he : cfg.endpoints = .ok r) (h : NewClient ctx cfg tr = .ok hc) :
    ∀ ep, hc.URL ep = r ep := by
  intro ep
  unfold NewClient at h
  cases ha : cfg.authorize ctx tr with
  | error e => rw [ha] at h; simp at h
  | ok t =>
    rw [ha, he] at h
    simp only [Except.ok.injEq] at h
    rw [← h]
    rfl

/-- Witness for `newClient_resolver_as_is`: the end-to-end scenario of the
spec — `URL "foo"` resolves to `http://example.test/foo`. -/
theorem newClient_resolver_as_is_witness :
    cfgOk.endpoints = .ok fooResolver ∧
    NewClient none cfgOk none = .ok hcOk ∧
    hcOk.URL "foo" = some "http://example.test/foo" :=
  ⟨rfl, rfl,
    (newClient_resolver_as_is none cfgOk none hcOk fooResolver rfl rfl "foo").trans
      (by decide)⟩

/-- Claim C10: `Do` never mutates the caller's request object — with a non-nil
context the context is bound to a freshly allocated copy, and every request
object allocated before the call (in particular the caller's, at any valid
address) is unchanged in the final heap. -/
theorem do_request_unchanged (c : HttpClient) (cv : CtxVal) (h : Heap) (p q : Nat)
    (s : Sched) (hq : q < h.next) :
    ((c.Do (some cv) h p s).2).mem q = h.mem q := by
  simp [HttpClient.Do, Heap.withContext, Heap.alloc, Nat.ne_of_lt hq]

/-- Witness for `do_request_unchanged`: the caller's request at address 0 of
the one-object heap is untouched by a cancelled `Do` call. -/
theorem do_request_unchanged_witness :
    0 < heap0.next ∧
    ((okClient.Do (some cancelCtx) heap0 0 schedCancel).2).mem 0 = heap0.mem 0 :=
  ⟨by decide, do_request_unchanged okClient cancelCtx heap0 0 0 schedCancel (by decide)⟩

end OptimizeGo
